import Mathlib

/-!
Verification development for the fiftyeight watchface.

The definitions below are a shallow embedding of the layout, classification,
widget, debug-counter and approximate-math routines of the repository:

* `src/c/fiftyeight.c` — digit size classes, time layout, second/minute/hour
  radial dots, debug counter (`canvas_update_proc`, `get_digit_width`,
  `draw_digit`, `debug_timer_callback`);
* `src/c/widgets.c` — corner widget resolver (`widgets_draw_corner`,
  `widgets_set_step_goal`);
* `src/c/math.c` — approximate trigonometry (`range_reduce`, `my_sin`,
  `my_cos`, `my_asin`, `my_sqrt`, `my_fabs`);
* the earlier revision of the main file (mixed-width date formatter:
  `draw_month_number` and the calendar-day block of its
  `canvas_update_proc`).

C `int` arithmetic is modelled on `Nat`/`Int` (all quantities in play are
small, far from overflow); C `float` arithmetic is modelled by exact
rational arithmetic, with the repository's `M_PI`/`M_PI_2` constants taken
at their binary32 values (13176795/2^22 and 13176795/2^23).  A C cast
`(int)` of a float truncates toward zero and is modelled by `ctrunc`.
-/

/-! ## Sprite-sheet constants (fiftyeight.c) -/

def PRIORITY_WIDTH : ℕ := 40
def SUBPRIORITY_WIDTH : ℕ := 27
def MIDPRIORITY_WIDTH : ℕ := 34
def SPRITE_HEIGHT : ℕ := 18
def SPRITES_PER_ROW : ℕ := 3
def DATE_WIDTH : ℕ := 20
def DATE_HALF_WIDTH : ℕ := 10

/-- Local constants of canvas_update_proc: `int colon_width = 8;` and
`int digit_spacing = 2;`. -/
def colon_width : ℕ := 8
def digit_spacing : ℕ := 2

/-- DigitType enum of fiftyeight.c. -/
inductive DigitType
  | priority
  | subpriority
  | midpriority
deriving DecidableEq, Repr

/-- get_digit_width of fiftyeight.c (the C default branch returns
SUBPRIORITY_WIDTH but is unreachable for the closed enum). -/
def get_digit_width : DigitType → ℕ
  | .priority => PRIORITY_WIDTH
  | .subpriority => SUBPRIORITY_WIDTH
  | .midpriority => MIDPRIORITY_WIDTH

/-- The 24-to-12 hour conversion of canvas_update_proc: in 12-hour mode,
hours above 12 lose 12 and hour 0 becomes 12. -/
def convert_hour (use_24_hour : Bool) (hour : ℕ) : ℕ :=
  if use_24_hour then hour
  else if hour > 12 then hour - 12
  else if hour = 0 then 12
  else hour

/-- The four per-digit size classes chosen by canvas_update_proc. -/
structure DigitTypes where
  hour_tens : DigitType
  hour_ones : DigitType
  minute_tens : DigitType
  minute_ones : DigitType
deriving DecidableEq, Repr

/-- The digit classification of canvas_update_proc (fiftyeight.c): every
slot defaults to DIGIT_SUBPRIORITY; a single-digit hour switches the hour
ones digit to DIGIT_PRIORITY and both minute digits to DIGIT_MIDPRIORITY. -/
def classify (hour : ℕ) : DigitTypes :=
  if hour / 10 = 0 then
    ⟨.subpriority, .priority, .midpriority, .midpriority⟩
  else
    ⟨.subpriority, .subpriority, .subpriority, .subpriority⟩

/-- The total_width accumulation of canvas_update_proc: hour tens width and
its trailing spacing only when the tens digit is nonzero, then hour ones,
colon and both minute digits, each followed by the fixed spacing except the
final glyph. -/
def total_width (hour : ℕ) : ℕ :=
  let t := classify hour
  (if hour / 10 > 0 then get_digit_width t.hour_tens + digit_spacing else 0)
    + get_digit_width t.hour_ones + digit_spacing
    + colon_width + digit_spacing
    + get_digit_width t.minute_tens + digit_spacing
    + get_digit_width t.minute_ones

/-- Modelled from the spec (Layout Composer): the widths of the glyphs that
are actually rendered, in order — hour tens (omitted entirely when its value
is 0), hour ones, the 8 px colon, minute tens, minute ones. -/
def spec_glyph_widths (hour : ℕ) : List ℕ :=
  let t := classify hour
  (if hour / 10 = 0 then [] else [get_digit_width t.hour_tens]) ++
    [get_digit_width t.hour_ones, colon_width,
     get_digit_width t.minute_tens, get_digit_width t.minute_ones]

/-- Modelled from the spec (Layout Composer): total width is the sum of the
present glyph widths plus one 2 px spacing after every glyph except the
last. -/
def spec_total_width (ws : List ℕ) : ℕ := ws.sum + digit_spacing * (ws.length - 1)

/-- C1: for every hour and minute (in particular the full 24 x 60 grid) the
total width computed by canvas_update_proc equals the sum of the widths of
the chosen size classes of the rendered glyphs plus a 2 px spacing after
every glyph except the last plus the 8 px colon width; when the hour tens
digit is 0 that glyph contributes neither width nor spacing. -/
theorem total_width_eq_spec (use_24_hour : Bool) (hour minute : ℕ) :
    total_width (convert_hour use_24_hour hour) =
      spec_total_width (spec_glyph_widths (convert_hour use_24_hour hour)) := by
  generalize convert_hour use_24_hour hour = h
  by_cases hh : h / 10 = 0 <;>
    simp [total_width, spec_total_width, spec_glyph_widths, classify, hh,
      get_digit_width, colon_width, digit_spacing, Nat.pos_iff_ne_zero,
      PRIORITY_WIDTH, SUBPRIORITY_WIDTH, MIDPRIORITY_WIDTH]

/-- C2: the classifier is total and assigns: for a single-digit hour, the
widest class (priority) to the hour ones digit and the mid-width class to
both minute digits; for a two-digit hour (11 included) the narrowest
(subpriority) class to both hour digits and to both minute digits.  The
subpriority class is the narrowest and the priority class the widest. -/
theorem classify_size_classes (hour : ℕ) :
    (hour / 10 = 0 →
      (classify hour).hour_ones = DigitType.priority ∧
      (classify hour).minute_tens = DigitType.midpriority ∧
      (classify hour).minute_ones = DigitType.midpriority) ∧
    (hour / 10 ≠ 0 →
      (classify hour).hour_tens = DigitType.subpriority ∧
      (classify hour).hour_ones = DigitType.subpriority ∧
      (classify hour).minute_tens = DigitType.subpriority ∧
      (classify hour).minute_ones = DigitType.subpriority) ∧
    (hour = 11 →
      (classify hour).hour_tens = DigitType.subpriority ∧
      (classify hour).hour_ones = DigitType.subpriority) ∧
    (∀ t : DigitType,
      get_digit_width DigitType.subpriority ≤ get_digit_width t ∧
      get_digit_width t ≤ get_digit_width DigitType.priority) := by
  refine ⟨fun h0 => ?_, fun h1 => ?_, fun h11 => ?_, fun t => ?_⟩
  · simp [classify, h0]
  · simp [classify, h1]
  · subst h11; simp [classify]
  · cases t <;> simp [get_digit_width, PRIORITY_WIDTH, SUBPRIORITY_WIDTH, MIDPRIORITY_WIDTH]

/-- C2 witness: the classifier facts instantiated at hour 9 (single digit)
and hour 11 (the repeated-digit case). -/
theorem classify_size_classes_witness :
    (classify 9).hour_ones = DigitType.priority ∧
    (classify 11).hour_tens = DigitType.subpriority ∧
    (classify 10).minute_ones = DigitType.subpriority := by
  refine ⟨((classify_size_classes 9).1 (by norm_num)).1, ?_, ?_⟩
  · exact ((classify_size_classes 11).2.2.1 rfl).1
  · exact ((classify_size_classes 10).2.1 (by norm_num)).2.2.2

/-! ## Mixed-width number formatter (earlier revision of the main file:
draw_month_number and the calendar-day block of canvas_update_proc) -/

/-- A date glyph: digit value, whether the half-width sheet is used, and the
horizontal offset from the start of the number block. -/
structure DateGlyph where
  value : ℕ
  half : Bool
  x : ℕ
deriving DecidableEq, Repr

/-- Width of a date glyph: 10 px for the half-width sheet, 20 px for the
full-width sheet. -/
def date_glyph_width (g : DateGlyph) : ℕ :=
  if g.half then DATE_HALF_WIDTH else DATE_WIDTH

/-- The mixed-width number formatter (calendar-day block of the earlier
canvas_update_proc): a single full-width glyph below 10; for two-digit
values, a half-width tens glyph followed by a full-width ones glyph when the
tens digit is 1, 2 or 3 and the digits differ, otherwise two full-width
glyphs; the second glyph sits at the first glyph's width plus the 2 px
spacing. -/
def format_number (v : ℕ) : List DateGlyph :=
  if v < 10 then [⟨v, false, 0⟩]
  else
    let tens := v / 10
    let ones := v % 10
    let repeating_digits := tens = ones
    if (tens = 1 ∨ tens = 2 ∨ tens = 3) ∧ ¬repeating_digits then
      [⟨tens, true, 0⟩, ⟨ones, false, DATE_HALF_WIDTH + digit_spacing⟩]
    else
      [⟨tens, false, 0⟩, ⟨ones, false, DATE_WIDTH + digit_spacing⟩]

/-- Pixel width of a formatted number block: the furthest right edge of its
glyphs. -/
def format_width (v : ℕ) : ℕ :=
  (format_number v).foldr (fun g m => max m (g.x + date_glyph_width g)) 0

/-- draw_month_number of the earlier revision: converts the 0-based month to
1-based and renders it with the same mixed-width rule, where only a leading
digit 1 can occur for months. -/
def month_glyphs (month : ℕ) : List DateGlyph :=
  let month_number := month + 1
  if month_number < 10 then [⟨month_number, false, 0⟩]
  else
    let month_tens := month_number / 10
    let month_ones := month_number % 10
    let repeating_digits := month_tens = month_ones
    if month_tens = 1 ∧ ¬repeating_digits then
      [⟨month_tens, true, 0⟩, ⟨month_ones, false, DATE_HALF_WIDTH + digit_spacing⟩]
    else
      [⟨month_tens, false, 0⟩, ⟨month_ones, false, DATE_WIDTH + digit_spacing⟩]

/-- C3: over the whole domain 0..31 the mixed-width formatter yields a
single full-width glyph below 10, two full-width glyphs when the two digits
repeat, a half-width tens glyph plus full-width ones glyph when the tens
digit is 1, 2 or 3 and the digits differ, and two full-width glyphs in every
other two-digit case; every second glyph sits at the first glyph's width
plus 2 px.  The month renderer agrees with the formatter on its whole
domain. -/
theorem format_number_rules :
    (∀ v : ℕ, v < 32 →
      (v < 10 → format_number v = [⟨v, false, 0⟩]) ∧
      (10 ≤ v → v / 10 = v % 10 →
        format_number v =
          [⟨v / 10, false, 0⟩, ⟨v % 10, false, DATE_WIDTH + digit_spacing⟩]) ∧
      (10 ≤ v → (v / 10 = 1 ∨ v / 10 = 2 ∨ v / 10 = 3) → v / 10 ≠ v % 10 →
        format_number v =
          [⟨v / 10, true, 0⟩, ⟨v % 10, false, DATE_HALF_WIDTH + digit_spacing⟩]) ∧
      (10 ≤ v → ¬(v / 10 = 1 ∨ v / 10 = 2 ∨ v / 10 = 3) →
        format_number v =
          [⟨v / 10, false, 0⟩, ⟨v % 10, false, DATE_WIDTH + digit_spacing⟩]) ∧
      (2 ≤ (format_number v).length →
        ((format_number v).getD 1 ⟨0, false, 0⟩).x =
          date_glyph_width ((format_number v).getD 0 ⟨0, false, 0⟩) + digit_spacing)) ∧
    (∀ month : ℕ, month < 12 → month_glyphs month = format_number (month + 1)) := by
  have h1 : ∀ v : ℕ, v < 32 → (v < 10 → format_number v = [⟨v, false, 0⟩]) := by decide
  have h2 : ∀ v : ℕ, v < 32 → (10 ≤ v → v / 10 = v % 10 →
      format_number v =
        [⟨v / 10, false, 0⟩, ⟨v % 10, false, DATE_WIDTH + digit_spacing⟩]) := by decide
  have h3 : ∀ v : ℕ, v < 32 →
      (10 ≤ v → (v / 10 = 1 ∨ v / 10 = 2 ∨ v / 10 = 3) → v / 10 ≠ v % 10 →
      format_number v =
        [⟨v / 10, true, 0⟩, ⟨v % 10, false, DATE_HALF_WIDTH + digit_spacing⟩]) := by decide
  have h4 : ∀ v : ℕ, v < 32 → (10 ≤ v → ¬(v / 10 = 1 ∨ v / 10 = 2 ∨ v / 10 = 3) →
      format_number v =
        [⟨v / 10, false, 0⟩, ⟨v % 10, false, DATE_WIDTH + digit_spacing⟩]) := by decide
  have h5 : ∀ v : ℕ, v < 32 → (2 ≤ (format_number v).length →
      ((format_number v).getD 1 ⟨0, false, 0⟩).x =
        date_glyph_width ((format_number v).getD 0 ⟨0, false, 0⟩) + digit_spacing) := by
    decide
  exact ⟨fun v hv => ⟨h1 v hv, h2 v hv, h3 v hv, h4 v hv, h5 v hv⟩, by decide⟩

/-- C3 witness: the formatter evaluated through the theorem at 31 (mixed
widths), 22 (repeated digits), 7 (single digit) and at month index 11. -/
theorem format_number_rules_witness :
    format_number 31 = [⟨3, true, 0⟩, ⟨1, false, 12⟩] ∧
    format_number 22 = [⟨2, false, 0⟩, ⟨2, false, 22⟩] ∧
    format_number 7 = [⟨7, false, 0⟩] ∧
    month_glyphs 11 = format_number 12 := by
  refine ⟨?_, ?_, ?_, ?_⟩
  · exact (format_number_rules.1 31 (by norm_num)).2.2.1 (by norm_num) (by norm_num)
      (by norm_num)
  · exact (format_number_rules.1 22 (by norm_num)).2.1 (by norm_num) (by norm_num)
  · exact (format_number_rules.1 7 (by norm_num)).1 (by norm_num)
  · exact format_number_rules.2 11 (by norm_num)

/-! ## Corner widget resolver (widgets.c) -/

/-- WidgetType enum of widgets.h; WIDGET_UNKNOWN stands for any integer the
configuration channel casts into the enum outside its declared values. -/
inductive WidgetType
  | WIDGET_NONE
  | WIDGET_MONTH_DATE
  | WIDGET_DAY_DATE
  | WIDGET_AM_PM_INDICATOR
  | WIDGET_BATTERY_INDICATOR
  | WIDGET_STEP_COUNT
  | WIDGET_UNKNOWN
deriving DecidableEq, Repr

/-- A widget draw call: which widget is painted and at which anchor. -/
structure WidgetDraw where
  widget : WidgetType
  x : ℤ
  y : ℤ
deriving DecidableEq, Repr

/-- The widget-width switch of widgets_draw_corner (widgets.c, right
corner): single-digit month/day use DATE_WIDTH, two-digit month/day use two
full-width glyphs plus 4 px, AM/PM is 20 px, battery and steps are 44 px,
and the default branch is 30 px.  `month` is the 0-based tm_mon and `day`
the 1-based tm_mday of the sample. -/
def widget_width (t : WidgetType) (month day : ℕ) : ℕ :=
  match t with
  | .WIDGET_MONTH_DATE => if month + 1 < 10 then DATE_WIDTH else DATE_WIDTH * 2 + 4
  | .WIDGET_DAY_DATE => if day < 10 then DATE_WIDTH else DATE_WIDTH * 2 + 4
  | .WIDGET_AM_PM_INDICATOR => 20
  | .WIDGET_BATTERY_INDICATOR => 44
  | .WIDGET_STEP_COUNT => 44
  | _ => 30

/-- CornerPosition enum of widgets.h. -/
inductive CornerPosition
  | CORNER_TOP_LEFT
  | CORNER_TOP_RIGHT
deriving DecidableEq, Repr

/-- widgets_draw_corner (widgets.c): WIDGET_NONE returns before anything is
computed; the left corner anchors at the 10 px side padding while the right
corner anchors at screen width minus the widget width minus the 10 px side
padding; the final dispatch switch draws the five known widgets and does
nothing (default: break) for any other value. -/
def widgets_draw_corner (corner : CornerPosition) (t : WidgetType)
    (screen_w month day : ℕ) : Option WidgetDraw :=
  if t = .WIDGET_NONE then Option.none
  else
    let x : ℤ :=
      if corner = .CORNER_TOP_LEFT then 10
      else (screen_w : ℤ) - (widget_width t month day : ℤ) - 10
    match t with
    | .WIDGET_MONTH_DATE => some ⟨t, x, 10⟩
    | .WIDGET_DAY_DATE => some ⟨t, x, 10⟩
    | .WIDGET_AM_PM_INDICATOR => some ⟨t, x, 10⟩
    | .WIDGET_BATTERY_INDICATOR => some ⟨t, x, 10⟩
    | .WIDGET_STEP_COUNT => some ⟨t, x, 10⟩
    | _ => Option.none

/-- C4 counterexample: the claim's width table fails on the code.  For the
day widget at day 12 the code computes 44 px (two full-width glyphs plus
4 px spacing), not the mixed-width formatter's 32 px; and an unrecognized
widget type is given the 30 px fallback width, not zero. -/
theorem widget_width_counterexample :
    widget_width .WIDGET_DAY_DATE 0 12 = 44 ∧ format_width 12 = 32 ∧
    widget_width .WIDGET_DAY_DATE 0 12 ≠ format_width 12 ∧
    widget_width .WIDGET_UNKNOWN 0 1 = 30 := by decide

/-- C4 (amended): the corner resolver's width is DATE_WIDTH for single-digit
month/day values and two full-width glyphs plus 4 px for two-digit values,
a fixed 20 px for the AM/PM indicator, a fixed 44 px for battery and steps,
and a 30 px fallback for unrecognized types; WIDGET_NONE is skipped before
any width is computed; no draw call is issued for none or unrecognized
types; the right-corner anchor x is screen width minus the widget width
minus the 10 px padding and the left-corner anchor x is the 10 px padding. -/
theorem widgets_corner_resolver (t : WidgetType) (screen_w month day : ℕ) :
    (widget_width .WIDGET_MONTH_DATE month day
      = if month + 1 < 10 then 20 else 44) ∧
    (widget_width .WIDGET_DAY_DATE month day = if day < 10 then 20 else 44) ∧
    widget_width .WIDGET_AM_PM_INDICATOR month day = 20 ∧
    widget_width .WIDGET_BATTERY_INDICATOR month day = 44 ∧
    widget_width .WIDGET_STEP_COUNT month day = 44 ∧
    widget_width .WIDGET_UNKNOWN month day = 30 ∧
    widgets_draw_corner .CORNER_TOP_RIGHT t screen_w month day
      = (if t = .WIDGET_NONE ∨ t = .WIDGET_UNKNOWN then Option.none
         else some ⟨t, (screen_w : ℤ) - (widget_width t month day : ℤ) - 10, 10⟩) ∧
    widgets_draw_corner .CORNER_TOP_LEFT t screen_w month day
      = (if t = .WIDGET_NONE ∨ t = .WIDGET_UNKNOWN then Option.none
         else some ⟨t, 10, 10⟩) := by
  refine ⟨rfl, rfl, rfl, rfl, rfl, rfl, ?_, ?_⟩ <;>
    cases t <;> simp [widgets_draw_corner, widget_width]

/-! ## Debug counter (fiftyeight.c, debug_timer_callback) -/

/-- One debug tick (debug_timer_callback with debug mode on): the counter is
incremented, then reset to 0 only once it exceeds 100. -/
def debug_counter_step (c : ℕ) : ℕ :=
  if c + 1 > 100 then 0 else c + 1

set_option maxRecDepth 4000 in
/-- C5 counterexample: starting from 0, after 100 ticks the debug counter
holds the value 100, outside the claimed range 0..99 — the reset condition
`> 100` fires only at 101. -/
theorem debug_counter_exceeds_99 :
    debug_counter_step^[100] 0 = 100 ∧ 99 < debug_counter_step^[100] 0 := by
  decide

/-- C5 (amended): under every sequence of debug ticks starting from 0 the
counter stays within 0..100 inclusive, incrementing by one each tick and
wrapping to 0 on the tick after it reaches 100. -/
theorem debug_counter_range :
    (∀ n : ℕ, debug_counter_step^[n] 0 ≤ 100) ∧
    (∀ c : ℕ, c < 100 → debug_counter_step c = c + 1) ∧
    debug_counter_step 100 = 0 := by
  refine ⟨?_, fun c hc => ?_, by decide⟩
  · intro n
    induction n with
    | zero => simp
    | succ k ih =>
      rw [Function.iterate_succ_apply']
      unfold debug_counter_step
      split_ifs <;> omega
  · unfold debug_counter_step
    split_ifs <;> omega

/-- C5 witness: the per-tick increment applied through the theorem at
counter value 42. -/
theorem debug_counter_range_witness : debug_counter_step 42 = 43 :=
  debug_counter_range.2.1 42 (by norm_num)

/-! ## Step goal (widgets.c) -/

/-- Initial value of the s_step_goal static in widgets.c. -/
def s_step_goal_initial : ℤ := 10000

/-- widgets_set_step_goal (widgets.c): the stored goal is replaced only by a
strictly positive argument; the function returns the new stored value. -/
def widgets_set_step_goal (step_goal : ℤ) (s_step_goal : ℤ) : ℤ :=
  if step_goal > 0 then step_goal else s_step_goal

/-- The stored step goal after a sequence of widgets_set_step_goal calls,
starting from the initial 10000. -/
def step_goal_after (calls : List ℤ) : ℤ :=
  calls.foldl (fun s g => widgets_set_step_goal g s) s_step_goal_initial

/-- C9: the stored step goal is strictly positive initially and after every
sequence of widgets_set_step_goal calls, and a non-positive argument leaves
the stored value unchanged. -/
theorem step_goal_positive :
    0 < s_step_goal_initial ∧
    (∀ calls : List ℤ, 0 < step_goal_after calls) ∧
    (∀ g s : ℤ, g ≤ 0 → widgets_set_step_goal g s = s) := by
  have step : ∀ (calls : List ℤ) (s : ℤ), 0 < s →
      0 < calls.foldl (fun s g => widgets_set_step_goal g s) s := by
    intro calls
    induction calls with
    | nil => intro s hs; simpa using hs
    | cons g rest ih =>
      intro s hs
      simp only [List.foldl_cons]
      apply ih
      unfold widgets_set_step_goal
      split_ifs <;> omega
  refine ⟨by norm_num [s_step_goal_initial], fun calls => ?_, fun g s hg => ?_⟩
  · exact step calls s_step_goal_initial (by norm_num [s_step_goal_initial])
  · unfold widgets_set_step_goal
    split_ifs <;> omega

/-- C9 witness: a rejected non-positive call and a positive history through
the theorem. -/
theorem step_goal_positive_witness :
    widgets_set_step_goal 0 10000 = 10000 ∧ 0 < step_goal_after [5000, -3, 0] :=
  ⟨step_goal_positive.2.2 0 10000 (by norm_num), step_goal_positive.2.1 [5000, -3, 0]⟩

/-! ## Approximate math (math.c), modelled over exact rationals

The repository's M_PI and M_PI_2 are the binary32 roundings of
3.141592653589793 and 1.5707963267948966, namely 13176795/2^22 and
13176795/2^23.  A C `(int)` cast of a float truncates toward zero. -/

def pi_f : ℚ := 13176795 / 4194304
def pi_half_f : ℚ := 13176795 / 8388608

/-- Truncation toward zero, the semantics of a C `(int)` cast. -/
def ctrunc (q : ℚ) : ℤ := if 0 ≤ q then ⌊q⌋ else -⌊-q⌋

/-- my_fabs (math.c): clearing the sign bit of a float is the absolute
value. -/
def my_fabs (x : ℚ) : ℚ := |x|

/-- Binary32 bit pattern of a positive value with the mantissa truncated to
23 bits: models the `union { float f; int i; }` reinterpretation used by
my_sqrt's initial guess (subnormal and overflow clamping not modelled). -/
def float_bits (q : ℚ) : ℤ :=
  (Int.log 2 q + 127) * 2 ^ 23 + ⌊(q / (2 : ℚ) ^ Int.log 2 q - 1) * 2 ^ 23⌋

/-- The value encoded by a binary32 bit pattern of a positive float. -/
def float_of_bits (n : ℤ) : ℚ :=
  (1 + ((n % 2 ^ 23 : ℤ) : ℚ) / 2 ^ 23) * (2 : ℚ) ^ (n / 2 ^ 23 - 127)

/-- my_sqrt (math.c): zero for non-positive input, otherwise the magic
0x5f3759df reciprocal-square-root bit trick followed by two Newton-Raphson
steps and a final multiplication by the input. -/
def my_sqrt (x : ℚ) : ℚ :=
  if x ≤ 0 then 0
  else
    let y := x * (1 / 2)
    let z0 := float_of_bits (1597463007 - float_bits x / 2)
    let z1 := z0 * (3 / 2 - y * z0 * z0)
    let z2 := z1 * (3 / 2 - y * z1 * z1)
    x * z2

/-- my_asin (math.c): zero outside [-1, 1], otherwise the odd polynomial
approximation (coefficient literals taken at their decimal values). -/
def my_asin (x : ℚ) : ℚ :=
  if my_fabs x > 1 then 0
  else
    let x2 := x * x
    x * (1 + x2 * (0.0833333333 + x2 * (0.0375 + x2 * 0.0208333333)))

/-- C10: the out-of-domain inputs of my_sqrt and my_asin are handled totally
by returning 0 — my_sqrt is 0 on every non-positive input and my_asin is 0
whenever the magnitude of the input exceeds 1. -/
theorem math_domain_guards :
    (∀ x : ℚ, x ≤ 0 → my_sqrt x = 0) ∧
    (∀ x : ℚ, 1 < my_fabs x → my_asin x = 0) := by
  constructor
  · intro x hx
    unfold my_sqrt
    rw [if_pos hx]
  · intro x hx
    unfold my_asin
    rw [if_pos hx]

/-- C10 witness: the guards applied through the theorem at -1 and 2. -/
theorem math_domain_guards_witness : my_sqrt (-1) = 0 ∧ my_asin 2 = 0 :=
  ⟨math_domain_guards.1 (-1) (by norm_num),
   math_domain_guards.2 2 (by norm_num [my_fabs])⟩

/-- range_reduce (math.c): normalize to (-2*pi, 2*pi) by subtracting the
truncated multiple of 2*pi, flip negative angles (recording the sign), fold
angles above pi back (flipping the sign again) and fold angles above pi/2
by reflecting at pi.  Returns the reduced angle and the sign factor. -/
def range_reduce (x0 : ℚ) : ℚ × ℚ :=
  let x1 := x0 - (ctrunc (x0 / (2 * pi_f)) : ℚ) * 2 * pi_f
  let x2 := if x1 < 0 then -x1 else x1
  let s2 : ℚ := if x1 < 0 then -1 else 1
  let x3 := if x2 > pi_f then 2 * pi_f - x2 else x2
  let s3 := if x2 > pi_f then -s2 else s2
  let x4 := if x3 > pi_half_f then pi_f - x3 else x3
  (x4, s3)

/-- my_sin (math.c): range reduction followed by Bhaskara's rational sine
approximation on [0, pi/2]; the final `return 0.0f` of the C function is
unreachable but kept. -/
def my_sin (x : ℚ) : ℚ :=
  let r := range_reduce x
  if r.1 ≤ pi_half_f then
    r.2 * (16 * r.1 * (pi_f - r.1)) / (5 * pi_f * pi_f - 4 * r.1 * (pi_f - r.1))
  else 0

/-- my_cos (math.c): a quarter-turn shift of my_sin. -/
def my_cos (x : ℚ) : ℚ := my_sin (x + pi_half_f)

/-! ## Radial dots (canvas_update_proc, fiftyeight.c) -/

/-- Radius of the circular dot path (`int radius = 50;`). -/
def radius : ℕ := 50

/-- Angle of the second dot: full turn per 60 seconds, zero at 12 o'clock. -/
def second_angle (second : ℕ) : ℚ :=
  ((second : ℚ) / 60) * 2 * pi_f - pi_half_f

/-- Angle of the minute dot. -/
def minute_angle (minute : ℕ) : ℚ :=
  ((minute : ℚ) / 60) * 2 * pi_f - pi_half_f

/-- The 12-hour display hour used for the hour dot (0 and 12 map to 12). -/
def display_hour (hour : ℕ) : ℕ :=
  if hour % 12 = 0 then 12 else hour % 12

/-- Angle of the hour dot, minutes contributing fractionally. -/
def hour_angle (hour minute : ℕ) : ℚ :=
  (((display_hour hour : ℚ) + (minute : ℚ) / 60) / 12) * 2 * pi_f - pi_half_f

/-- x coordinate of the second dot: center plus truncated radius * cos. -/
def second_dot_x (center_x : ℤ) (second : ℕ) : ℤ :=
  center_x + ctrunc ((radius : ℚ) * my_cos (second_angle second))

/-- y coordinate of the second dot: center plus truncated radius * sin. -/
def second_dot_y (center_y : ℤ) (second : ℕ) : ℤ :=
  center_y + ctrunc ((radius : ℚ) * my_sin (second_angle second))

/-- x coordinate of the minute dot. -/
def minute_dot_x (center_x : ℤ) (minute : ℕ) : ℤ :=
  center_x + ctrunc ((radius : ℚ) * my_cos (minute_angle minute))

/-- y coordinate of the minute dot. -/
def minute_dot_y (center_y : ℤ) (minute : ℕ) : ℤ :=
  center_y + ctrunc ((radius : ℚ) * my_sin (minute_angle minute))

/-- x coordinate of the hour dot. -/
def hour_dot_x (center_x : ℤ) (hour minute : ℕ) : ℤ :=
  center_x + ctrunc ((radius : ℚ) * my_cos (hour_angle hour minute))

/-- y coordinate of the hour dot. -/
def hour_dot_y (center_y : ℤ) (hour minute : ℕ) : ℤ :=
  center_y + ctrunc ((radius : ℚ) * my_sin (hour_angle hour minute))

/-! ## Bounds on the approximate trigonometry -/

lemma pi_f_pos : 0 < pi_f := by norm_num [pi_f]

lemma pi_half_f_pos : 0 < pi_half_f := by norm_num [pi_half_f]

lemma two_pi_half_f : 2 * pi_half_f = pi_f := by norm_num [pi_f, pi_half_f]

/-- Truncation toward zero moves a value by less than one. -/
lemma ctrunc_gap (q : ℚ) : |q - (ctrunc q : ℚ)| < 1 := by
  unfold ctrunc
  split_ifs with h
  · have h1 : ((⌊q⌋ : ℤ) : ℚ) ≤ q := Int.floor_le q
    have h2 : q < ⌊q⌋ + 1 := Int.lt_floor_add_one q
    rw [abs_of_nonneg (by linarith)]
    linarith
  · have h1 : ((⌊-q⌋ : ℤ) : ℚ) ≤ -q := Int.floor_le (-q)
    have h2 : -q < ⌊-q⌋ + 1 := Int.lt_floor_add_one (-q)
    push_cast
    rw [sub_neg_eq_add, abs_of_nonpos (by linarith)]
    linarith

/-- Truncation toward zero does not increase the magnitude. -/
lemma abs_ctrunc_le (q : ℚ) : |(ctrunc q : ℚ)| ≤ |q| := by
  unfold ctrunc
  split_ifs with h
  · rw [abs_of_nonneg h, abs_of_nonneg (by exact_mod_cast Int.floor_nonneg.2 h)]
    exact Int.floor_le q
  · have hq : q < 0 := lt_of_not_ge h
    have h0 : (0 : ℚ) ≤ -q := by linarith
    have hf : (0 : ℤ) ≤ ⌊-q⌋ := Int.floor_nonneg.2 h0
    have hle : ((⌊-q⌋ : ℤ) : ℚ) ≤ -q := Int.floor_le (-q)
    push_cast
    rw [abs_neg, abs_of_nonneg (by exact_mod_cast hf), abs_of_neg hq]
    exact hle

/-- The reduced angle of range_reduce lies in [0, pi/2]. -/
lemma range_reduce_mem (x0 : ℚ) :
    0 ≤ (range_reduce x0).1 ∧ (range_reduce x0).1 ≤ pi_half_f := by
  have hpi := pi_f_pos
  have hhalf := two_pi_half_f
  have hgap := ctrunc_gap (x0 / (2 * pi_f))
  have h2pi : (0 : ℚ) < 2 * pi_f := by linarith
  have hx1 : |x0 - (ctrunc (x0 / (2 * pi_f)) : ℚ) * 2 * pi_f| < 2 * pi_f := by
    have heq : x0 - (ctrunc (x0 / (2 * pi_f)) : ℚ) * 2 * pi_f =
        (x0 / (2 * pi_f) - (ctrunc (x0 / (2 * pi_f)) : ℚ)) * (2 * pi_f) := by
      field_simp
      ring
    calc |x0 - (ctrunc (x0 / (2 * pi_f)) : ℚ) * 2 * pi_f|
        = |x0 / (2 * pi_f) - (ctrunc (x0 / (2 * pi_f)) : ℚ)| * (2 * pi_f) := by
          rw [heq, abs_mul, abs_of_pos h2pi]
      _ < 1 * (2 * pi_f) := mul_lt_mul_of_pos_right hgap h2pi
      _ = 2 * pi_f := one_mul _
  rw [abs_lt] at hx1
  simp only [range_reduce]
  split_ifs <;> constructor <;> linarith

/-- The sign produced by range_reduce is 1 or -1. -/
lemma range_reduce_sign (x0 : ℚ) :
    (range_reduce x0).2 = 1 ∨ (range_reduce x0).2 = -1 := by
  simp only [range_reduce]
  split_ifs <;> simp

/-- Bhaskara's approximation is within [0, 1] on the reduced interval. -/
lemma bhaskara_bounds (x : ℚ) (h0 : 0 ≤ x) (h2 : x ≤ pi_half_f) :
    0 ≤ 16 * x * (pi_f - x) / (5 * pi_f * pi_f - 4 * x * (pi_f - x)) ∧
    16 * x * (pi_f - x) / (5 * pi_f * pi_f - 4 * x * (pi_f - x)) ≤ 1 := by
  have hpi := pi_f_pos
  have hhalf := two_pi_half_f
  have hxle : x ≤ pi_f := by linarith
  have hkey : 4 * x * (pi_f - x) ≤ pi_f * pi_f := by nlinarith [sq_nonneg (pi_f - 2 * x)]
  have hden : 0 < 5 * pi_f * pi_f - 4 * x * (pi_f - x) := by nlinarith
  have hnum : 0 ≤ 16 * x * (pi_f - x) := by nlinarith
  constructor
  · exact div_nonneg hnum (le_of_lt hden)
  · rw [div_le_one hden]
    nlinarith

/-- my_sin never leaves [-1, 1]. -/
lemma abs_my_sin_le_one (x : ℚ) : |my_sin x| ≤ 1 := by
  obtain ⟨hm0, hm2⟩ := range_reduce_mem x
  have hb := bhaskara_bounds (range_reduce x).1 hm0 hm2
  simp only [my_sin]
  rw [if_pos hm2]
  rcases range_reduce_sign x with hs | hs <;> rw [hs]
  · rw [one_mul, abs_of_nonneg hb.1]
    exact hb.2
  · have heq : (-1 : ℚ) * (16 * (range_reduce x).1 * (pi_f - (range_reduce x).1)) /
        (5 * pi_f * pi_f - 4 * (range_reduce x).1 * (pi_f - (range_reduce x).1)) =
        -(16 * (range_reduce x).1 * (pi_f - (range_reduce x).1) /
          (5 * pi_f * pi_f - 4 * (range_reduce x).1 * (pi_f - (range_reduce x).1))) := by
      ring
    rw [heq, abs_neg, abs_of_nonneg hb.1]
    exact hb.2

/-- my_cos never leaves [-1, 1]. -/
lemma abs_my_cos_le_one (x : ℚ) : |my_cos x| ≤ 1 := by
  unfold my_cos
  exact abs_my_sin_le_one (x + pi_half_f)

/-- A truncated radius-scaled value of a function bounded by 1 stays within
the radius. -/
lemma abs_ctrunc_radius_le (c : ℚ) (hc : |c| ≤ 1) :
    |ctrunc ((radius : ℚ) * c)| ≤ (radius : ℤ) := by
  have h1 : |(ctrunc ((radius : ℚ) * c) : ℚ)| ≤ (radius : ℚ) := by
    calc |(ctrunc ((radius : ℚ) * c) : ℚ)| ≤ |(radius : ℚ) * c| := abs_ctrunc_le _
      _ = (radius : ℚ) * |c| := by
          rw [abs_mul, abs_of_nonneg (by positivity)]
      _ ≤ (radius : ℚ) * 1 := mul_le_mul_of_nonneg_left hc (by positivity)
      _ = (radius : ℚ) := mul_one _
  exact_mod_cast h1

/-- C8: the reduced angle always lands in [0, pi/2], my_sin and my_cos are
bounded by 1 in absolute value for every rational input, and consequently
every radial dot coordinate (second, minute and hour dots alike) is within
the 50 px radius of the circle center along each axis. -/
theorem trig_bounded_and_marks_in_radius :
    (∀ x : ℚ, 0 ≤ (range_reduce x).1 ∧ (range_reduce x).1 ≤ pi_half_f) ∧
    (∀ x : ℚ, |my_sin x| ≤ 1) ∧
    (∀ x : ℚ, |my_cos x| ≤ 1) ∧
    (∀ (c : ℤ) (s : ℕ),
      |second_dot_x c s - c| ≤ 50 ∧ |second_dot_y c s - c| ≤ 50) ∧
    (∀ (c : ℤ) (m : ℕ),
      |minute_dot_x c m - c| ≤ 50 ∧ |minute_dot_y c m - c| ≤ 50) ∧
    (∀ (c : ℤ) (h m : ℕ),
      |hour_dot_x c h m - c| ≤ 50 ∧ |hour_dot_y c h m - c| ≤ 50) := by
  have hrad : ∀ q : ℚ, |q| ≤ 1 → ∀ c : ℤ, |c + ctrunc ((radius : ℚ) * q) - c| ≤ 50 := by
    intro q hq c
    have := abs_ctrunc_radius_le q hq
    have hc : c + ctrunc ((radius : ℚ) * q) - c = ctrunc ((radius : ℚ) * q) := by ring
    rw [hc]
    simpa [radius] using this
  refine ⟨range_reduce_mem, abs_my_sin_le_one, abs_my_cos_le_one, ?_, ?_, ?_⟩
  · exact fun c s => ⟨hrad _ (abs_my_cos_le_one (second_angle s)) c,
      hrad _ (abs_my_sin_le_one (second_angle s)) c⟩
  · exact fun c m => ⟨hrad _ (abs_my_cos_le_one (minute_angle m)) c,
      hrad _ (abs_my_sin_le_one (minute_angle m)) c⟩
  · exact fun c h m => ⟨hrad _ (abs_my_cos_le_one (hour_angle h m)) c,
      hrad _ (abs_my_sin_le_one (hour_angle h m)) c⟩

/-! ## Exact positions of the second dot for each of the 60 seconds -/

lemma sdx0 : ctrunc ((radius : ℚ) * my_cos (second_angle 0)) = 0 := by
  norm_num [ctrunc, second_angle, my_cos, my_sin, range_reduce, pi_f, pi_half_f, radius, Int.floor_eq_iff]

lemma sdy0 : ctrunc ((radius : ℚ) * my_sin (second_angle 0)) = -50 := by
  norm_num [ctrunc, second_angle, my_cos, my_sin, range_reduce, pi_f, pi_half_f, radius, Int.floor_eq_iff]

lemma sdx1 : ctrunc ((radius : ℚ) * my_cos (second_angle 1)) = 5 := by
  norm_num [ctrunc, second_angle, my_cos, my_sin, range_reduce, pi_f, pi_half_f, radius, Int.floor_eq_iff]

lemma sdy1 : ctrunc ((radius : ℚ) * my_sin (second_angle 1)) = -49 := by
  norm_num [ctrunc, second_angle, my_cos, my_sin, range_reduce, pi_f, pi_half_f, radius, Int.floor_eq_iff]

lemma sdx2 : ctrunc ((radius : ℚ) * my_cos (second_angle 2)) = 10 := by
  norm_num [ctrunc, second_angle, my_cos, my_sin, range_reduce, pi_f, pi_half_f, radius, Int.floor_eq_iff]

lemma sdy2 : ctrunc ((radius : ℚ) * my_sin (second_angle 2)) = -48 := by
  norm_num [ctrunc, second_angle, my_cos, my_sin, range_reduce, pi_f, pi_half_f, radius, Int.floor_eq_iff]

lemma sdx3 : ctrunc ((radius : ℚ) * my_cos (second_angle 3)) = 15 := by
  norm_num [ctrunc, second_angle, my_cos, my_sin, range_reduce, pi_f, pi_half_f, radius, Int.floor_eq_iff]

lemma sdy3 : ctrunc ((radius : ℚ) * my_sin (second_angle 3)) = -47 := by
  norm_num [ctrunc, second_angle, my_cos, my_sin, range_reduce, pi_f, pi_half_f, radius, Int.floor_eq_iff]

lemma sdx4 : ctrunc ((radius : ℚ) * my_cos (second_angle 4)) = 20 := by
  norm_num [ctrunc, second_angle, my_cos, my_sin, range_reduce, pi_f, pi_half_f, radius, Int.floor_eq_iff]

lemma sdy4 : ctrunc ((radius : ℚ) * my_sin (second_angle 4)) = -45 := by
  norm_num [ctrunc, second_angle, my_cos, my_sin, range_reduce, pi_f, pi_half_f, radius, Int.floor_eq_iff]

lemma sdx5 : ctrunc ((radius : ℚ) * my_cos (second_angle 5)) = 25 := by
  norm_num [ctrunc, second_angle, my_cos, my_sin, range_reduce, pi_f, pi_half_f, radius, Int.floor_eq_iff]

lemma sdy5 : ctrunc ((radius : ℚ) * my_sin (second_angle 5)) = -43 := by
  norm_num [ctrunc, second_angle, my_cos, my_sin, range_reduce, pi_f, pi_half_f, radius, Int.floor_eq_iff]

lemma sdx6 : ctrunc ((radius : ℚ) * my_cos (second_angle 6)) = 29 := by
  norm_num [ctrunc, second_angle, my_cos, my_sin, range_reduce, pi_f, pi_half_f, radius, Int.floor_eq_iff]

lemma sdy6 : ctrunc ((radius : ℚ) * my_sin (second_angle 6)) = -40 := by
  norm_num [ctrunc, second_angle, my_cos, my_sin, range_reduce, pi_f, pi_half_f, radius, Int.floor_eq_iff]

lemma sdx7 : ctrunc ((radius : ℚ) * my_cos (second_angle 7)) = 33 := by
  norm_num [ctrunc, second_angle, my_cos, my_sin, range_reduce, pi_f, pi_half_f, radius, Int.floor_eq_iff]

lemma sdy7 : ctrunc ((radius : ℚ) * my_sin (second_angle 7)) = -37 := by
  norm_num [ctrunc, second_angle, my_cos, my_sin, range_reduce, pi_f, pi_half_f, radius, Int.floor_eq_iff]

lemma sdx8 : ctrunc ((radius : ℚ) * my_cos (second_angle 8)) = 37 := by
  norm_num [ctrunc, second_angle, my_cos, my_sin, range_reduce, pi_f, pi_half_f, radius, Int.floor_eq_iff]

lemma sdy8 : ctrunc ((radius : ℚ) * my_sin (second_angle 8)) = -33 := by
  norm_num [ctrunc, second_angle, my_cos, my_sin, range_reduce, pi_f, pi_half_f, radius, Int.floor_eq_iff]

lemma sdx9 : ctrunc ((radius : ℚ) * my_cos (second_angle 9)) = 40 := by
  norm_num [ctrunc, second_angle, my_cos, my_sin, range_reduce, pi_f, pi_half_f, radius, Int.floor_eq_iff]

lemma sdy9 : ctrunc ((radius : ℚ) * my_sin (second_angle 9)) = -29 := by
  norm_num [ctrunc, second_angle, my_cos, my_sin, range_reduce, pi_f, pi_half_f, radius, Int.floor_eq_iff]

lemma sdx10 : ctrunc ((radius : ℚ) * my_cos (second_angle 10)) = 43 := by
  norm_num [ctrunc, second_angle, my_cos, my_sin, range_reduce, pi_f, pi_half_f, radius, Int.floor_eq_iff]

lemma sdy10 : ctrunc ((radius : ℚ) * my_sin (second_angle 10)) = -25 := by
  norm_num [ctrunc, second_angle, my_cos, my_sin, range_reduce, pi_f, pi_half_f, radius, Int.floor_eq_iff]

lemma sdx11 : ctrunc ((radius : ℚ) * my_cos (second_angle 11)) = 45 := by
  norm_num [ctrunc, second_angle, my_cos, my_sin, range_reduce, pi_f, pi_half_f, radius, Int.floor_eq_iff]

lemma sdy11 : ctrunc ((radius : ℚ) * my_sin (second_angle 11)) = -20 := by
  norm_num [ctrunc, second_angle, my_cos, my_sin, range_reduce, pi_f, pi_half_f, radius, Int.floor_eq_iff]

lemma sdx12 : ctrunc ((radius : ℚ) * my_cos (second_angle 12)) = 47 := by
  norm_num [ctrunc, second_angle, my_cos, my_sin, range_reduce, pi_f, pi_half_f, radius, Int.floor_eq_iff]

lemma sdy12 : ctrunc ((radius : ℚ) * my_sin (second_angle 12)) = -15 := by
  norm_num [ctrunc, second_angle, my_cos, my_sin, range_reduce, pi_f, pi_half_f, radius, Int.floor_eq_iff]

lemma sdx13 : ctrunc ((radius : ℚ) * my_cos (second_angle 13)) = 48 := by
  norm_num [ctrunc, second_angle, my_cos, my_sin, range_reduce, pi_f, pi_half_f, radius, Int.floor_eq_iff]

lemma sdy13 : ctrunc ((radius : ℚ) * my_sin (second_angle 13)) = -10 := by
  norm_num [ctrunc, second_angle, my_cos, my_sin, range_reduce, pi_f, pi_half_f, radius, Int.floor_eq_iff]

lemma sdx14 : ctrunc ((radius : ℚ) * my_cos (second_angle 14)) = 49 := by
  norm_num [ctrunc, second_angle, my_cos, my_sin, range_reduce, pi_f, pi_half_f, radius, Int.floor_eq_iff]

lemma sdy14 : ctrunc ((radius : ℚ) * my_sin (second_angle 14)) = -5 := by
  norm_num [ctrunc, second_angle, my_cos, my_sin, range_reduce, pi_f, pi_half_f, radius, Int.floor_eq_iff]

lemma sdx15 : ctrunc ((radius : ℚ) * my_cos (second_angle 15)) = 50 := by
  norm_num [ctrunc, second_angle, my_cos, my_sin, range_reduce, pi_f, pi_half_f, radius, Int.floor_eq_iff]

lemma sdy15 : ctrunc ((radius : ℚ) * my_sin (second_angle 15)) = 0 := by
  norm_num [ctrunc, second_angle, my_cos, my_sin, range_reduce, pi_f, pi_half_f, radius, Int.floor_eq_iff]

lemma sdx16 : ctrunc ((radius : ℚ) * my_cos (second_angle 16)) = 49 := by
  norm_num [ctrunc, second_angle, my_cos, my_sin, range_reduce, pi_f, pi_half_f, radius, Int.floor_eq_iff]

lemma sdy16 : ctrunc ((radius : ℚ) * my_sin (second_angle 16)) = 5 := by
  norm_num [ctrunc, second_angle, my_cos, my_sin, range_reduce, pi_f, pi_half_f, radius, Int.floor_eq_iff]

lemma sdx17 : ctrunc ((radius : ℚ) * my_cos (second_angle 17)) = 48 := by
  norm_num [ctrunc, second_angle, my_cos, my_sin, range_reduce, pi_f, pi_half_f, radius, Int.floor_eq_iff]

lemma sdy17 : ctrunc ((radius : ℚ) * my_sin (second_angle 17)) = 10 := by
  norm_num [ctrunc, second_angle, my_cos, my_sin, range_reduce, pi_f, pi_half_f, radius, Int.floor_eq_iff]

lemma sdx18 : ctrunc ((radius : ℚ) * my_cos (second_angle 18)) = 47 := by
  norm_num [ctrunc, second_angle, my_cos, my_sin, range_reduce, pi_f, pi_half_f, radius, Int.floor_eq_iff]

lemma sdy18 : ctrunc ((radius : ℚ) * my_sin (second_angle 18)) = 15 := by
  norm_num [ctrunc, second_angle, my_cos, my_sin, range_reduce, pi_f, pi_half_f, radius, Int.floor_eq_iff]

lemma sdx19 : ctrunc ((radius : ℚ) * my_cos (second_angle 19)) = 45 := by
  norm_num [ctrunc, second_angle, my_cos, my_sin, range_reduce, pi_f, pi_half_f, radius, Int.floor_eq_iff]

lemma sdy19 : ctrunc ((radius : ℚ) * my_sin (second_angle 19)) = 20 := by
  norm_num [ctrunc, second_angle, my_cos, my_sin, range_reduce, pi_f, pi_half_f, radius, Int.floor_eq_iff]

lemma sdx20 : ctrunc ((radius : ℚ) * my_cos (second_angle 20)) = 43 := by
  norm_num [ctrunc, second_angle, my_cos, my_sin, range_reduce, pi_f, pi_half_f, radius, Int.floor_eq_iff]

lemma sdy20 : ctrunc ((radius : ℚ) * my_sin (second_angle 20)) = 25 := by
  norm_num [ctrunc, second_angle, my_cos, my_sin, range_reduce, pi_f, pi_half_f, radius, Int.floor_eq_iff]

lemma sdx21 : ctrunc ((radius : ℚ) * my_cos (second_angle 21)) = 40 := by
  norm_num [ctrunc, second_angle, my_cos, my_sin, range_reduce, pi_f, pi_half_f, radius, Int.floor_eq_iff]

lemma sdy21 : ctrunc ((radius : ℚ) * my_sin (second_angle 21)) = 29 := by
  norm_num [ctrunc, second_angle, my_cos, my_sin, range_reduce, pi_f, pi_half_f, radius, Int.floor_eq_iff]

lemma sdx22 : ctrunc ((radius : ℚ) * my_cos (second_angle 22)) = 37 := by
  norm_num [ctrunc, second_angle, my_cos, my_sin, range_reduce, pi_f, pi_half_f, radius, Int.floor_eq_iff]

lemma sdy22 : ctrunc ((radius : ℚ) * my_sin (second_angle 22)) = 33 := by
  norm_num [ctrunc, second_angle, my_cos, my_sin, range_reduce, pi_f, pi_half_f, radius, Int.floor_eq_iff]

lemma sdx23 : ctrunc ((radius : ℚ) * my_cos (second_angle 23)) = 33 := by
  norm_num [ctrunc, second_angle, my_cos, my_sin, range_reduce, pi_f, pi_half_f, radius, Int.floor_eq_iff]

lemma sdy23 : ctrunc ((radius : ℚ) * my_sin (second_angle 23)) = 37 := by
  norm_num [ctrunc, second_angle, my_cos, my_sin, range_reduce, pi_f, pi_half_f, radius, Int.floor_eq_iff]

lemma sdx24 : ctrunc ((radius : ℚ) * my_cos (second_angle 24)) = 29 := by
  norm_num [ctrunc, second_angle, my_cos, my_sin, range_reduce, pi_f, pi_half_f, radius, Int.floor_eq_iff]

lemma sdy24 : ctrunc ((radius : ℚ) * my_sin (second_angle 24)) = 40 := by
  norm_num [ctrunc, second_angle, my_cos, my_sin, range_reduce, pi_f, pi_half_f, radius, Int.floor_eq_iff]

lemma sdx25 : ctrunc ((radius : ℚ) * my_cos (second_angle 25)) = 25 := by
  norm_num [ctrunc, second_angle, my_cos, my_sin, range_reduce, pi_f, pi_half_f, radius, Int.floor_eq_iff]

lemma sdy25 : ctrunc ((radius : ℚ) * my_sin (second_angle 25)) = 43 := by
  norm_num [ctrunc, second_angle, my_cos, my_sin, range_reduce, pi_f, pi_half_f, radius, Int.floor_eq_iff]

lemma sdx26 : ctrunc ((radius : ℚ) * my_cos (second_angle 26)) = 20 := by
  norm_num [ctrunc, second_angle, my_cos, my_sin, range_reduce, pi_f, pi_half_f, radius, Int.floor_eq_iff]

lemma sdy26 : ctrunc ((radius : ℚ) * my_sin (second_angle 26)) = 45 := by
  norm_num [ctrunc, second_angle, my_cos, my_sin, range_reduce, pi_f, pi_half_f, radius, Int.floor_eq_iff]

lemma sdx27 : ctrunc ((radius : ℚ) * my_cos (second_angle 27)) = 15 := by
  norm_num [ctrunc, second_angle, my_cos, my_sin, range_reduce, pi_f, pi_half_f, radius, Int.floor_eq_iff]

lemma sdy27 : ctrunc ((radius : ℚ) * my_sin (second_angle 27)) = 47 := by
  norm_num [ctrunc, second_angle, my_cos, my_sin, range_reduce, pi_f, pi_half_f, radius, Int.floor_eq_iff]

lemma sdx28 : ctrunc ((radius : ℚ) * my_cos (second_angle 28)) = 10 := by
  norm_num [ctrunc, second_angle, my_cos, my_sin, range_reduce, pi_f, pi_half_f, radius, Int.floor_eq_iff]

lemma sdy28 : ctrunc ((radius : ℚ) * my_sin (second_angle 28)) = 48 := by
  norm_num [ctrunc, second_angle, my_cos, my_sin, range_reduce, pi_f, pi_half_f, radius, Int.floor_eq_iff]

lemma sdx29 : ctrunc ((radius : ℚ) * my_cos (second_angle 29)) = 5 := by
  norm_num [ctrunc, second_angle, my_cos, my_sin, range_reduce, pi_f, pi_half_f, radius, Int.floor_eq_iff]

lemma sdy29 : ctrunc ((radius : ℚ) * my_sin (second_angle 29)) = 49 := by
  norm_num [ctrunc, second_angle, my_cos, my_sin, range_reduce, pi_f, pi_half_f, radius, Int.floor_eq_iff]

lemma sdx30 : ctrunc ((radius : ℚ) * my_cos (second_angle 30)) = 0 := by
  norm_num [ctrunc, second_angle, my_cos, my_sin, range_reduce, pi_f, pi_half_f, radius, Int.floor_eq_iff]

lemma sdy30 : ctrunc ((radius : ℚ) * my_sin (second_angle 30)) = 50 := by
  norm_num [ctrunc, second_angle, my_cos, my_sin, range_reduce, pi_f, pi_half_f, radius, Int.floor_eq_iff]

lemma sdx31 : ctrunc ((radius : ℚ) * my_cos (second_angle 31)) = -5 := by
  norm_num [ctrunc, second_angle, my_cos, my_sin, range_reduce, pi_f, pi_half_f, radius, Int.floor_eq_iff]

lemma sdy31 : ctrunc ((radius : ℚ) * my_sin (second_angle 31)) = 49 := by
  norm_num [ctrunc, second_angle, my_cos, my_sin, range_reduce, pi_f, pi_half_f, radius, Int.floor_eq_iff]

lemma sdx32 : ctrunc ((radius : ℚ) * my_cos (second_angle 32)) = -10 := by
  norm_num [ctrunc, second_angle, my_cos, my_sin, range_reduce, pi_f, pi_half_f, radius, Int.floor_eq_iff]

lemma sdy32 : ctrunc ((radius : ℚ) * my_sin (second_angle 32)) = 48 := by
  norm_num [ctrunc, second_angle, my_cos, my_sin, range_reduce, pi_f, pi_half_f, radius, Int.floor_eq_iff]

lemma sdx33 : ctrunc ((radius : ℚ) * my_cos (second_angle 33)) = -15 := by
  norm_num [ctrunc, second_angle, my_cos, my_sin, range_reduce, pi_f, pi_half_f, radius, Int.floor_eq_iff]

lemma sdy33 : ctrunc ((radius : ℚ) * my_sin (second_angle 33)) = 47 := by
  norm_num [ctrunc, second_angle, my_cos, my_sin, range_reduce, pi_f, pi_half_f, radius, Int.floor_eq_iff]

lemma sdx34 : ctrunc ((radius : ℚ) * my_cos (second_angle 34)) = -20 := by
  norm_num [ctrunc, second_angle, my_cos, my_sin, range_reduce, pi_f, pi_half_f, radius, Int.floor_eq_iff]

lemma sdy34 : ctrunc ((radius : ℚ) * my_sin (second_angle 34)) = 45 := by
  norm_num [ctrunc, second_angle, my_cos, my_sin, range_reduce, pi_f, pi_half_f, radius, Int.floor_eq_iff]

lemma sdx35 : ctrunc ((radius : ℚ) * my_cos (second_angle 35)) = -25 := by
  norm_num [ctrunc, second_angle, my_cos, my_sin, range_reduce, pi_f, pi_half_f, radius, Int.floor_eq_iff]

lemma sdy35 : ctrunc ((radius : ℚ) * my_sin (second_angle 35)) = 43 := by
  norm_num [ctrunc, second_angle, my_cos, my_sin, range_reduce, pi_f, pi_half_f, radius, Int.floor_eq_iff]

lemma sdx36 : ctrunc ((radius : ℚ) * my_cos (second_angle 36)) = -29 := by
  norm_num [ctrunc, second_angle, my_cos, my_sin, range_reduce, pi_f, pi_half_f, radius, Int.floor_eq_iff]

lemma sdy36 : ctrunc ((radius : ℚ) * my_sin (second_angle 36)) = 40 := by
  norm_num [ctrunc, second_angle, my_cos, my_sin, range_reduce, pi_f, pi_half_f, radius, Int.floor_eq_iff]

lemma sdx37 : ctrunc ((radius : ℚ) * my_cos (second_angle 37)) = -33 := by
  norm_num [ctrunc, second_angle, my_cos, my_sin, range_reduce, pi_f, pi_half_f, radius, Int.floor_eq_iff]

lemma sdy37 : ctrunc ((radius : ℚ) * my_sin (second_angle 37)) = 37 := by
  norm_num [ctrunc, second_angle, my_cos, my_sin, range_reduce, pi_f, pi_half_f, radius, Int.floor_eq_iff]

lemma sdx38 : ctrunc ((radius : ℚ) * my_cos (second_angle 38)) = -37 := by
  norm_num [ctrunc, second_angle, my_cos, my_sin, range_reduce, pi_f, pi_half_f, radius, Int.floor_eq_iff]

lemma sdy38 : ctrunc ((radius : ℚ) * my_sin (second_angle 38)) = 33 := by
  norm_num [ctrunc, second_angle, my_cos, my_sin, range_reduce, pi_f, pi_half_f, radius, Int.floor_eq_iff]

lemma sdx39 : ctrunc ((radius : ℚ) * my_cos (second_angle 39)) = -40 := by
  norm_num [ctrunc, second_angle, my_cos, my_sin, range_reduce, pi_f, pi_half_f, radius, Int.floor_eq_iff]

lemma sdy39 : ctrunc ((radius : ℚ) * my_sin (second_angle 39)) = 29 := by
  norm_num [ctrunc, second_angle, my_cos, my_sin, range_reduce, pi_f, pi_half_f, radius, Int.floor_eq_iff]

lemma sdx40 : ctrunc ((radius : ℚ) * my_cos (second_angle 40)) = -43 := by
  norm_num [ctrunc, second_angle, my_cos, my_sin, range_reduce, pi_f, pi_half_f, radius, Int.floor_eq_iff]

lemma sdy40 : ctrunc ((radius : ℚ) * my_sin (second_angle 40)) = 25 := by
  norm_num [ctrunc, second_angle, my_cos, my_sin, range_reduce, pi_f, pi_half_f, radius, Int.floor_eq_iff]

lemma sdx41 : ctrunc ((radius : ℚ) * my_cos (second_angle 41)) = -45 := by
  norm_num [ctrunc, second_angle, my_cos, my_sin, range_reduce, pi_f, pi_half_f, radius, Int.floor_eq_iff]

lemma sdy41 : ctrunc ((radius : ℚ) * my_sin (second_angle 41)) = 20 := by
  norm_num [ctrunc, second_angle, my_cos, my_sin, range_reduce, pi_f, pi_half_f, radius, Int.floor_eq_iff]

lemma sdx42 : ctrunc ((radius : ℚ) * my_cos (second_angle 42)) = -47 := by
  norm_num [ctrunc, second_angle, my_cos, my_sin, range_reduce, pi_f, pi_half_f, radius, Int.floor_eq_iff]

lemma sdy42 : ctrunc ((radius : ℚ) * my_sin (second_angle 42)) = 15 := by
  norm_num [ctrunc, second_angle, my_cos, my_sin, range_reduce, pi_f, pi_half_f, radius, Int.floor_eq_iff]

lemma sdx43 : ctrunc ((radius : ℚ) * my_cos (second_angle 43)) = -48 := by
  norm_num [ctrunc, second_angle, my_cos, my_sin, range_reduce, pi_f, pi_half_f, radius, Int.floor_eq_iff]

lemma sdy43 : ctrunc ((radius : ℚ) * my_sin (second_angle 43)) = 10 := by
  norm_num [ctrunc, second_angle, my_cos, my_sin, range_reduce, pi_f, pi_half_f, radius, Int.floor_eq_iff]

lemma sdx44 : ctrunc ((radius : ℚ) * my_cos (second_angle 44)) = -49 := by
  norm_num [ctrunc, second_angle, my_cos, my_sin, range_reduce, pi_f, pi_half_f, radius, Int.floor_eq_iff]

lemma sdy44 : ctrunc ((radius : ℚ) * my_sin (second_angle 44)) = 5 := by
  norm_num [ctrunc, second_angle, my_cos, my_sin, range_reduce, pi_f, pi_half_f, radius, Int.floor_eq_iff]

lemma sdx45 : ctrunc ((radius : ℚ) * my_cos (second_angle 45)) = -50 := by
  norm_num [ctrunc, second_angle, my_cos, my_sin, range_reduce, pi_f, pi_half_f, radius, Int.floor_eq_iff]

lemma sdy45 : ctrunc ((radius : ℚ) * my_sin (second_angle 45)) = 0 := by
  norm_num [ctrunc, second_angle, my_cos, my_sin, range_reduce, pi_f, pi_half_f, radius, Int.floor_eq_iff]

lemma sdx46 : ctrunc ((radius : ℚ) * my_cos (second_angle 46)) = -49 := by
  norm_num [ctrunc, second_angle, my_cos, my_sin, range_reduce, pi_f, pi_half_f, radius, Int.floor_eq_iff]

lemma sdy46 : ctrunc ((radius : ℚ) * my_sin (second_angle 46)) = -5 := by
  norm_num [ctrunc, second_angle, my_cos, my_sin, range_reduce, pi_f, pi_half_f, radius, Int.floor_eq_iff]

lemma sdx47 : ctrunc ((radius : ℚ) * my_cos (second_angle 47)) = -48 := by
  norm_num [ctrunc, second_angle, my_cos, my_sin, range_reduce, pi_f, pi_half_f, radius, Int.floor_eq_iff]

lemma sdy47 : ctrunc ((radius : ℚ) * my_sin (second_angle 47)) = -10 := by
  norm_num [ctrunc, second_angle, my_cos, my_sin, range_reduce, pi_f, pi_half_f, radius, Int.floor_eq_iff]

lemma sdx48 : ctrunc ((radius : ℚ) * my_cos (second_angle 48)) = -47 := by
  norm_num [ctrunc, second_angle, my_cos, my_sin, range_reduce, pi_f, pi_half_f, radius, Int.floor_eq_iff]

lemma sdy48 : ctrunc ((radius : ℚ) * my_sin (second_angle 48)) = -15 := by
  norm_num [ctrunc, second_angle, my_cos, my_sin, range_reduce, pi_f, pi_half_f, radius, Int.floor_eq_iff]

lemma sdx49 : ctrunc ((radius : ℚ) * my_cos (second_angle 49)) = -45 := by
  norm_num [ctrunc, second_angle, my_cos, my_sin, range_reduce, pi_f, pi_half_f, radius, Int.floor_eq_iff]

lemma sdy49 : ctrunc ((radius : ℚ) * my_sin (second_angle 49)) = -20 := by
  norm_num [ctrunc, second_angle, my_cos, my_sin, range_reduce, pi_f, pi_half_f, radius, Int.floor_eq_iff]

lemma sdx50 : ctrunc ((radius : ℚ) * my_cos (second_angle 50)) = -43 := by
  norm_num [ctrunc, second_angle, my_cos, my_sin, range_reduce, pi_f, pi_half_f, radius, Int.floor_eq_iff]

lemma sdy50 : ctrunc ((radius : ℚ) * my_sin (second_angle 50)) = -25 := by
  norm_num [ctrunc, second_angle, my_cos, my_sin, range_reduce, pi_f, pi_half_f, radius, Int.floor_eq_iff]

lemma sdx51 : ctrunc ((radius : ℚ) * my_cos (second_angle 51)) = -40 := by
  norm_num [ctrunc, second_angle, my_cos, my_sin, range_reduce, pi_f, pi_half_f, radius, Int.floor_eq_iff]

lemma sdy51 : ctrunc ((radius : ℚ) * my_sin (second_angle 51)) = -29 := by
  norm_num [ctrunc, second_angle, my_cos, my_sin, range_reduce, pi_f, pi_half_f, radius, Int.floor_eq_iff]

lemma sdx52 : ctrunc ((radius : ℚ) * my_cos (second_angle 52)) = -37 := by
  norm_num [ctrunc, second_angle, my_cos, my_sin, range_reduce, pi_f, pi_half_f, radius, Int.floor_eq_iff]

lemma sdy52 : ctrunc ((radius : ℚ) * my_sin (second_angle 52)) = -33 := by
  norm_num [ctrunc, second_angle, my_cos, my_sin, range_reduce, pi_f, pi_half_f, radius, Int.floor_eq_iff]

lemma sdx53 : ctrunc ((radius : ℚ) * my_cos (second_angle 53)) = -33 := by
  norm_num [ctrunc, second_angle, my_cos, my_sin, range_reduce, pi_f, pi_half_f, radius, Int.floor_eq_iff]

lemma sdy53 : ctrunc ((radius : ℚ) * my_sin (second_angle 53)) = -37 := by
  norm_num [ctrunc, second_angle, my_cos, my_sin, range_reduce, pi_f, pi_half_f, radius, Int.floor_eq_iff]

lemma sdx54 : ctrunc ((radius : ℚ) * my_cos (second_angle 54)) = -29 := by
  norm_num [ctrunc, second_angle, my_cos, my_sin, range_reduce, pi_f, pi_half_f, radius, Int.floor_eq_iff]

lemma sdy54 : ctrunc ((radius : ℚ) * my_sin (second_angle 54)) = -40 := by
  norm_num [ctrunc, second_angle, my_cos, my_sin, range_reduce, pi_f, pi_half_f, radius, Int.floor_eq_iff]

lemma sdx55 : ctrunc ((radius : ℚ) * my_cos (second_angle 55)) = -25 := by
  norm_num [ctrunc, second_angle, my_cos, my_sin, range_reduce, pi_f, pi_half_f, radius, Int.floor_eq_iff]

lemma sdy55 : ctrunc ((radius : ℚ) * my_sin (second_angle 55)) = -43 := by
  norm_num [ctrunc, second_angle, my_cos, my_sin, range_reduce, pi_f, pi_half_f, radius, Int.floor_eq_iff]

lemma sdx56 : ctrunc ((radius : ℚ) * my_cos (second_angle 56)) = -20 := by
  norm_num [ctrunc, second_angle, my_cos, my_sin, range_reduce, pi_f, pi_half_f, radius, Int.floor_eq_iff]

lemma sdy56 : ctrunc ((radius : ℚ) * my_sin (second_angle 56)) = -45 := by
  norm_num [ctrunc, second_angle, my_cos, my_sin, range_reduce, pi_f, pi_half_f, radius, Int.floor_eq_iff]

lemma sdx57 : ctrunc ((radius : ℚ) * my_cos (second_angle 57)) = -15 := by
  norm_num [ctrunc, second_angle, my_cos, my_sin, range_reduce, pi_f, pi_half_f, radius, Int.floor_eq_iff]

lemma sdy57 : ctrunc ((radius : ℚ) * my_sin (second_angle 57)) = -47 := by
  norm_num [ctrunc, second_angle, my_cos, my_sin, range_reduce, pi_f, pi_half_f, radius, Int.floor_eq_iff]

lemma sdx58 : ctrunc ((radius : ℚ) * my_cos (second_angle 58)) = -10 := by
  norm_num [ctrunc, second_angle, my_cos, my_sin, range_reduce, pi_f, pi_half_f, radius, Int.floor_eq_iff]

lemma sdy58 : ctrunc ((radius : ℚ) * my_sin (second_angle 58)) = -48 := by
  norm_num [ctrunc, second_angle, my_cos, my_sin, range_reduce, pi_f, pi_half_f, radius, Int.floor_eq_iff]

lemma sdx59 : ctrunc ((radius : ℚ) * my_cos (second_angle 59)) = -5 := by
  norm_num [ctrunc, second_angle, my_cos, my_sin, range_reduce, pi_f, pi_half_f, radius, Int.floor_eq_iff]

lemma sdy59 : ctrunc ((radius : ℚ) * my_sin (second_angle 59)) = -49 := by
  norm_num [ctrunc, second_angle, my_cos, my_sin, range_reduce, pi_f, pi_half_f, radius, Int.floor_eq_iff]

/-- C6: at second 0 the second dot sits exactly at (center_x, center_y -
radius), the 12 o'clock point; and for every second the dot's distance from
the center is between radius - 1 and radius pixels (squared distance between
49^2 and 50^2), an explicit error band for the Bhaskara approximation plus
the truncation to integer pixels. -/
theorem second_dot_twelve_oclock_and_on_circle :
    (∀ cx cy : ℤ, second_dot_x cx 0 = cx ∧ second_dot_y cy 0 = cy - 50) ∧
    (∀ (cx cy : ℤ) (s : ℕ), s < 60 →
      (49 : ℤ) ^ 2 ≤ (second_dot_x cx s - cx) ^ 2 + (second_dot_y cy s - cy) ^ 2 ∧
      (second_dot_x cx s - cx) ^ 2 + (second_dot_y cy s - cy) ^ 2 ≤ (50 : ℤ) ^ 2) := by
  have hsx : ∀ (cx : ℤ) (s : ℕ),
      second_dot_x cx s - cx = ctrunc ((radius : ℚ) * my_cos (second_angle s)) := by
    intro cx s
    unfold second_dot_x
    ring
  have hsy : ∀ (cy : ℤ) (s : ℕ),
      second_dot_y cy s - cy = ctrunc ((radius : ℚ) * my_sin (second_angle s)) := by
    intro cy s
    unfold second_dot_y
    ring
  constructor
  · intro cx cy
    constructor
    · unfold second_dot_x
      rw [sdx0]
      ring
    · unfold second_dot_y
      rw [sdy0]
      ring
  · intro cx cy s hs
    rw [hsx, hsy]
    interval_cases s <;>
      simp only [sdx0, sdy0, sdx1, sdy1, sdx2, sdy2, sdx3, sdy3, sdx4, sdy4, sdx5, sdy5, sdx6, sdy6, sdx7, sdy7, sdx8, sdy8, sdx9, sdy9, sdx10, sdy10, sdx11, sdy11, sdx12, sdy12, sdx13, sdy13, sdx14, sdy14, sdx15, sdy15, sdx16, sdy16, sdx17, sdy17, sdx18, sdy18, sdx19, sdy19, sdx20, sdy20, sdx21, sdy21, sdx22, sdy22, sdx23, sdy23, sdx24, sdy24, sdx25, sdy25, sdx26, sdy26, sdx27, sdy27, sdx28, sdy28, sdx29, sdy29, sdx30, sdy30, sdx31, sdy31, sdx32, sdy32, sdx33, sdy33, sdx34, sdy34, sdx35, sdy35, sdx36, sdy36, sdx37, sdy37, sdx38, sdy38, sdx39, sdy39, sdx40, sdy40, sdx41, sdy41, sdx42, sdy42, sdx43, sdy43, sdx44, sdy44, sdx45, sdy45, sdx46, sdy46, sdx47, sdy47, sdx48, sdy48, sdx49, sdy49, sdx50, sdy50, sdx51, sdy51, sdx52, sdy52, sdx53, sdy53, sdx54, sdy54, sdx55, sdy55, sdx56, sdy56, sdx57, sdy57, sdx58, sdy58, sdx59, sdy59] <;> norm_num

/-- C6 witness: the distance bound obtained through the theorem at second
30 with the Pebble screen center (72, 84). -/
theorem second_dot_on_circle_witness :
    (49 : ℤ) ^ 2 ≤ (second_dot_x 72 30 - 72) ^ 2 + (second_dot_y 84 30 - 84) ^ 2 ∧
    (second_dot_x 72 30 - 72) ^ 2 + (second_dot_y 84 30 - 84) ^ 2 ≤ (50 : ℤ) ^ 2 :=
  second_dot_twelve_oclock_and_on_circle.2 72 84 30 (by norm_num)

/-! ## Atlas lookups and the digit draw pass (fiftyeight.c) -/

/-- Sprite position of a digit in a digit sheet (draw_digit): digit 0 sits
at row 3, column 0; any other digit d at row (d-1)/3, column (d-1)%3. -/
def sprite_pos (digit : ℕ) : ℕ × ℕ :=
  if digit = 0 then (3, 0)
  else ((digit - 1) / SPRITES_PER_ROW, (digit - 1) % SPRITES_PER_ROW)

/-- The validation performed by draw_digit before creating the sub-bitmap:
the sheet must have positive reported dimensions and the sprite's column and
row must fall inside the sheet's column and row counts. -/
def digit_in_bounds (sheet_w sheet_h digit : ℕ) (t : DigitType) : Prop :=
  0 < sheet_w ∧ 0 < sheet_h ∧
  (sprite_pos digit).2 < sheet_w / get_digit_width t ∧
  (sprite_pos digit).1 < sheet_h / SPRITE_HEIGHT

instance (sheet_w sheet_h digit : ℕ) (t : DigitType) :
    Decidable (digit_in_bounds sheet_w sheet_h digit t) := by
  unfold digit_in_bounds
  infer_instance

/-- A single issued digit draw: digit value, size class and x position. -/
structure GlyphDraw where
  digit : ℕ
  dtype : DigitType
  x : ℤ
deriving DecidableEq, Repr

/-- draw_digit (fiftyeight.c): produces a draw only when the computed atlas
sub-rectangle lies inside the sheet whose reported dimensions are given by
`dims`; otherwise the draw is skipped with no other effect. -/
def draw_digit (dims : DigitType → ℕ × ℕ) (digit : ℕ) (t : DigitType) (x : ℤ) :
    Option GlyphDraw :=
  if digit_in_bounds (dims t).1 (dims t).2 digit t then some ⟨digit, t, x⟩
  else Option.none

/-- Centered starting x of the time block (C integer division truncates
toward zero). -/
def start_x (screen_w hour : ℕ) : ℤ :=
  Int.tdiv ((screen_w : ℤ) - (total_width hour : ℤ)) 2

/-- The glyph slots of the time display with their x positions, exactly as
canvas_update_proc accumulates current_x: hour tens (only when nonzero),
hour ones, then the colon advance, minute tens, minute ones. -/
def time_glyph_slots (screen_w hour minute : ℕ) : List GlyphDraw :=
  let t := classify hour
  let hour_tens := hour / 10
  let x0 : ℤ := start_x screen_w hour
  let x1 : ℤ :=
    if hour_tens > 0 then x0 + (get_digit_width t.hour_tens : ℤ) + (digit_spacing : ℤ)
    else x0
  let x2 : ℤ := x1 + (get_digit_width t.hour_ones : ℤ) + (digit_spacing : ℤ)
  let x3 : ℤ := x2 + (colon_width : ℤ) + (digit_spacing : ℤ)
  let x4 : ℤ := x3 + (get_digit_width t.minute_tens : ℤ) + (digit_spacing : ℤ)
  (if hour_tens > 0 then [⟨hour_tens, t.hour_tens, x0⟩] else []) ++
    [⟨hour % 10, t.hour_ones, x1⟩,
     ⟨minute / 10, t.minute_tens, x3⟩,
     ⟨minute % 10, t.minute_ones, x4⟩]

/-- The digit draw pass of canvas_update_proc: each glyph is attempted
through draw_digit against the sheet dimensions of its size class, and
current_x advances by the glyph's width plus spacing whether or not the
draw succeeded (the colon advance happens unconditionally between the hour
and minute groups). -/
def render_time_digits (dims : DigitType → ℕ × ℕ) (screen_w hour minute : ℕ) :
    List GlyphDraw :=
  let t := classify hour
  let hour_tens := hour / 10
  let x0 : ℤ := start_x screen_w hour
  let d1 : Option GlyphDraw :=
    if hour_tens > 0 then draw_digit dims hour_tens t.hour_tens x0 else Option.none
  let x1 : ℤ :=
    if hour_tens > 0 then x0 + (get_digit_width t.hour_tens : ℤ) + (digit_spacing : ℤ)
    else x0
  let d2 : Option GlyphDraw := draw_digit dims (hour % 10) t.hour_ones x1
  let x2 : ℤ := x1 + (get_digit_width t.hour_ones : ℤ) + (digit_spacing : ℤ)
  let x3 : ℤ := x2 + (colon_width : ℤ) + (digit_spacing : ℤ)
  let d3 : Option GlyphDraw := draw_digit dims (minute / 10) t.minute_tens x3
  let x4 : ℤ := x3 + (get_digit_width t.minute_tens : ℤ) + (digit_spacing : ℤ)
  let d4 : Option GlyphDraw := draw_digit dims (minute % 10) t.minute_ones x4
  [d1, d2, d3, d4].filterMap id

set_option maxHeartbeats 1600000 in
/-- C7: a failed atlas-bounds check only omits that one glyph from the draw
list — the rendered glyphs are exactly the slots whose atlas rectangle fits
their sheet, with the same x offsets the all-successful pass computes (the
spacing stays reserved); against a sheet with all sprites in bounds (for
example the real 120 x 72 sheets) the pass draws every slot. -/
theorem atlas_failure_isolated (dims : DigitType → ℕ × ℕ)
    (screen_w hour minute : ℕ) (hh : hour < 24) (hm : minute < 60) :
    render_time_digits dims screen_w hour minute =
      (time_glyph_slots screen_w hour minute).filter
        (fun g => digit_in_bounds (dims g.dtype).1 (dims g.dtype).2 g.digit g.dtype) ∧
    render_time_digits (fun _ => (120, 72)) screen_w hour minute =
      time_glyph_slots screen_w hour minute := by
  have hbounds : ∀ (d : ℕ) (t : DigitType), d ≤ 9 → digit_in_bounds 120 72 d t := by
    intro d t hd
    interval_cases d <;> cases t <;> decide
  constructor
  · simp only [render_time_digits, time_glyph_slots, draw_digit]
    by_cases h0 : hour / 10 > 0 <;>
      simp only [h0, if_true, if_false, reduceIte, List.nil_append, List.cons_append,
        List.filterMap_cons, List.filter_cons, id] <;>
      split_ifs <;>
      simp_all [List.filter_cons, List.filterMap_cons]
  · simp only [render_time_digits, time_glyph_slots, draw_digit]
    have h1 := hbounds (hour / 10) (classify hour).hour_tens (by omega)
    have h2 := hbounds (hour % 10) (classify hour).hour_ones (by omega)
    have h3 := hbounds (minute / 10) (classify hour).minute_tens (by omega)
    have h4 := hbounds (minute % 10) (classify hour).minute_ones (by omega)
    by_cases h0 : hour / 10 > 0 <;>
      simp_all [List.filterMap_cons]

/-- C7 witness: the draw pass through the theorem at screen width 144,
12:34, with sheets reporting 120 x 72. -/
theorem atlas_failure_isolated_witness :
    render_time_digits (fun _ => (120, 72)) 144 12 34 = time_glyph_slots 144 12 34 :=
  (atlas_failure_isolated (fun _ => (120, 72)) 144 12 34 (by norm_num) (by norm_num)).2
